import Mathlib

/- Shallow embedding of the project-management core of `native-windows-wysiwyg`
(`src/native-windows-wysiwyg/src/main.rs`).  File contents are modelled as
`List Char`, timestamps (`SystemTime`) as `Nat`, and the outcome of every call
the core makes outside its own code (filesystem, subprocess spawn, the external
`toml` crate, and the repository's `project` / `gui` / `parser` modules, whose
sources are not present) as fields of an `Env` oracle record.  Every operation
returns its result together with the ordered list of externally visible events
(`Ev`) it performed. -/

namespace NWW

/-- Outcome of a subprocess (`std::process::ExitStatus`): `some code` is a
normal exit with that code, `none` is termination by a signal.  Rust's
`ExitStatus::success()` holds exactly when the code is `Some(0)`. -/
abbrev ExitStatus := Option Int

/-- Modelled from the spec: the parsed manifest document (built by the external
`toml` crate; queried only through the missing `project` module).  Per the spec
non-goal of "no full manifest schema modeling beyond the dependency-section
edit", only the projection the core queries is kept: the package name and the
names listed in the dependency section (`none` when that section is absent). -/
structure TomlVal where
  package_name : Option String
  dependencies : Option (List (List Char))
deriving DecidableEq

/-- `CargoToml` of the missing `project` module (constructed at main.rs lines
148-159 and 343-346).  Modelled from the spec: a Manifest is a `modified`
timestamp plus the parsed `content`. -/
structure CargoToml where
  modified : Nat
  content : TomlVal
deriving DecidableEq

/-- Modelled from the spec: `Project` of the missing `project` module — the
root path plus its owned Manifest (`Project::new(path, cargo_toml)`). -/
structure Project where
  path : String
  cargo_toml : CargoToml
deriving DecidableEq

/-- Modelled from the spec: `GuiTask` of the missing `gui` module — the tagged
task values the core appends for the shell to drain (spec section 6). -/
inductive GuiTask where
  | EnableUi : Bool → GuiTask
  | UpdateWindowTitle : String → GuiTask
  | ReloadProjectSettings : GuiTask
  | ReloadObjectInspector : GuiTask
  | AskUserUpdateDependencies : GuiTask
  | ClearData : GuiTask
deriving DecidableEq

/-- `AppState` (main.rs lines 34-43). -/
structure AppState where
  project : Option Project
  gui_struct_index : Option Nat
  gui_tasks : List GuiTask
deriving DecidableEq

/-- `AppState::init` (main.rs lines 47-53). -/
def AppState.init : AppState := ⟨none, none, []⟩

/-- `AppState::project_loaded` (main.rs lines 55-57). -/
def AppState.project_loaded (s : AppState) : Bool := s.project.isSome

/-- `AppState::set_gui_struct_index` (main.rs lines 75-77). -/
def set_gui_struct_index (s : AppState) (i : Option Nat) : AppState :=
  { s with gui_struct_index := i }

/-- Externally visible events an operation performs, in order: metadata stats,
directory listing, the `cargo init` spawn, file reads/appends/writes (with the
bytes written), and the console warning of `fix_dependencies`. -/
inductive Ev where
  | statRoot : Ev
  | readDir : Ev
  | runCargoInit : Ev
  | appendCargo : List Char → Ev
  | statCargo : Ev
  | readCargo : Ev
  | writeCargo : List Char → Ev
  | statFile : Ev
  | logWarn : Ev
deriving DecidableEq

/-- Oracle for the outcomes of every call outside the embedded code during one
operation: `fs::metadata` on the project root (`rootMeta`, with `is_dir` and
`readonly` attributes), `fs::read_dir` (`readDirNonEmpty`: `none` = the listing
failed, `some b` = whether a first entry exists), the `cargo init` spawn,
opening/appending to Cargo.toml during `cargo_init`, `fs::metadata` on
Cargo.toml (`cargoMeta`), `fs::read_to_string` on Cargo.toml (`cargoRead`),
`toml::from_str` (`parse`), `fs::metadata` / `Path::file_stem` on a single
file, the missing `parser::has_gui_struct` predicate (modelled from the spec's
Source Scanner contract), opening/writing Cargo.toml in `fix_dependencies`,
and the missing `Project::reload_gui_struct`. -/
structure Env where
  rootMeta : Option Nat
  rootIsDir : Bool
  rootReadonly : Bool
  readDirNonEmpty : Option Bool
  spawnCargoInit : Option ExitStatus
  openAppendOk : Bool
  appendWriteOk : Bool
  cargoMeta : Option Nat
  cargoRead : Option (List Char)
  parse : List Char → Option TomlVal
  fileMeta : Option Nat
  fileStem : Option String
  hasGuiStruct : Bool
  openWriteOk : Bool
  writeAllOk : Bool
  reloadGuiStruct : Except String Unit

/- Error messages, as in the source; the formatted payload of the underlying
io/toml error value is not modelled. -/

def existMsg : String := "Project path does not exist or you lack the permissions to access it"

def notDirMsg : String := "Project path is not a directory"

def notWritableMsg : String := "You do not have write access to the project path"

def notEmptyMsg : String := "Project path must be empty"

def readDirFailMsg : String := "Project path must be empty, but the app failed to read its content"

def spawnFailMsg : String := "Failed to run `cargo init`"

/-- Error message for a non-zero exit of `cargo init` (main.rs line 304); the
exit code appears in the text. -/
def cargoExitMsg (c : Int) : String :=
  "`cargo init` terminated with exit code " ++ toString c

def cargoSignalMsg : String := "`cargo init` process terminated by signal"

def openAppendFailMsg : String := "Failed to read `Cargo.toml`"

def appendFailMsg : String := "Failed to write dependencies to `Cargo.toml`"

def readTomlMetaFailMsg : String := "Failed to read `Cargo.toml`"

def readTomlFailMsg : String := "Failed to read `Cargo.toml`"

def parseTomlFailMsg : String := "Failed to parse `Cargo.toml`"

def noGuiStructMsg : String := "A valid file project must already have a GUI struct defined"

def openFileMetaFailMsg (path : String) : String := "Failed to read " ++ path

def fixReadFailMsg : String := "Failed to read Cargo.toml"

def noDepSectionMsg : String := "Cannot find \"[dependencies]\" in Cargo.toml"

def fixOpenFailMsg : String := "Failed to open `Cargo.toml`"

def fixWriteFailMsg : String := "Failed to write dependencies to `Cargo.toml`"

def nwgName : List Char := "native-windows-gui".data

def nwdName : List Char := "native-windows-derive".data

/-- The section-header marker searched for by `fix_dependencies`
(main.rs line 220). -/
def depMarker : List Char := "[dependencies]".data

/-- First dependency chunk written by `fix_dependencies` (main.rs line 239),
without its leading newline (the newline is inserted by the splice). -/
def nwgChunk : List Char := "native-windows-gui = \"~1.0\"\n".data

/-- Second dependency chunk written by `fix_dependencies` (main.rs line 240). -/
def nwdChunk : List Char := "native-windows-derive = \"~1.0\"\n".data

/-- The block appended by `cargo_init` (main.rs lines 319-322). -/
def depChunk : List Char := nwgChunk ++ nwdChunk

/-- Modelled from the spec: `has_dependency` — a structural lookup in the
dependency section of the parsed manifest; absence of the section itself is
not an error, it simply means the dependency is not present. -/
def has_dependency (t : TomlVal) (name : List Char) : Bool :=
  match t.dependencies with
  | none => false
  | some deps => deps.contains name

/-- Modelled from the spec: `Project::missing_dependencies` of the missing
`project` module (called at main.rs line 208); one flag per required
dependency that `has_dependency` does not find. -/
def missing_dependencies (p : Project) : Bool × Bool :=
  (!(has_dependency p.cargo_toml.content nwgName),
   !(has_dependency p.cargo_toml.content nwdName))

/-- Modelled from the spec: `Project::dependencies_ok` of the missing
`project` module (called at main.rs line 118) — both required dependencies
are present. -/
def dependencies_ok (p : Project) : Bool :=
  has_dependency p.cargo_toml.content nwgName &&
  has_dependency p.cargo_toml.content nwdName

/-- Index of the first occurrence of `pat` in a character list
(`str::match_indices(pat).next()`, main.rs lines 219-229). -/
def findSub (pat : List Char) : List Char → Option Nat
  | [] => if pat.isPrefixOf ([] : List Char) then some 0 else none
  | c :: rest =>
    if pat.isPrefixOf (c :: rest) then some 0
    else (findSub pat rest).map (· + 1)

/-- The text-level dependency splice of `AppState::fix_dependencies`
(main.rs lines 218-241): split the text right after the first occurrence of
`"[dependencies]"` and write back [text up to and including the marker] ++
one newline ++ the dependency lines ++ [the original remainder]; `none` when
the marker is absent.  `fix_dependencies` instantiates `lines` with
`[nwgChunk, nwdChunk]` (the leading newline of the first written chunk is the
inserted newline). -/
def splice (text : List Char) (lines : List (List Char)) : Option (List Char) :=
  match findSub depMarker text with
  | none => none
  | some i =>
    let k := i + depMarker.length
    some (text.take k ++ '\n' :: (lines.flatten ++ text.drop k))

/-- `AppState::read_cargo_toml` (main.rs lines 330-349).  Faithful to the
source: the metadata stat is `fs::metadata(path)` on the project root
directory, not on `cargo_path`, so the returned `modified` is the root
directory's timestamp. -/
def read_cargo_toml (env : Env) : Except String CargoToml × List Ev :=
  match env.rootMeta with
  | none => (.error readTomlMetaFailMsg, [Ev.statRoot])
  | some m =>
    match env.cargoRead with
    | none => (.error readTomlFailMsg, [Ev.statRoot, Ev.readCargo])
    | some str =>
      match env.parse str with
      | none => (.error parseTomlFailMsg, [Ev.statRoot, Ev.readCargo])
      | some v => (.ok ⟨m, v⟩, [Ev.statRoot, Ev.readCargo])

/-- `AppState::reload_cargo` (main.rs lines 352-376), acting on the loaded
project: stat Cargo.toml; when its timestamp equals the stored `modified`,
return the project unchanged without reading the file; otherwise read and
parse the file and replace the manifest. -/
def reload_cargo (env : Env) (p : Project) : Except String Project × List Ev :=
  match env.cargoMeta with
  | none => (.error readTomlMetaFailMsg, [Ev.statCargo])
  | some m =>
    if m = p.cargo_toml.modified then (.ok p, [Ev.statCargo])
    else
      match env.cargoRead with
      | none => (.error readTomlFailMsg, [Ev.statCargo, Ev.readCargo])
      | some str =>
        match env.parse str with
        | none => (.error parseTomlFailMsg, [Ev.statCargo, Ev.readCargo])
        | some v => (.ok { p with cargo_toml := ⟨m, v⟩ }, [Ev.statCargo, Ev.readCargo])

/-- `AppState::validate_new_project_path` (main.rs lines 257-289): existence,
then is-directory, then writable, then empty, each short-circuiting. -/
def validate_new_project_path (env : Env) : Except String Unit × List Ev :=
  match env.rootMeta with
  | none => (.error existMsg, [Ev.statRoot])
  | some _ =>
    if !env.rootIsDir then (.error notDirMsg, [Ev.statRoot])
    else if env.rootReadonly then (.error notWritableMsg, [Ev.statRoot])
    else
      match env.readDirNonEmpty with
      | none => (.error readDirFailMsg, [Ev.statRoot, Ev.readDir])
      | some hasEntry =>
        if hasEntry then (.error notEmptyMsg, [Ev.statRoot, Ev.readDir])
        else (.ok (), [Ev.statRoot, Ev.readDir])

/-- Rust's `ExitStatus::success()`: the process exited normally with code 0. -/
def exitSuccess (st : ExitStatus) : Bool := st == some 0

/-- `AppState::cargo_init` (main.rs lines 291-328): spawn `cargo init --bin`;
a non-success status is surfaced with the exit code, or as a signal
termination when there is no code; on success the two dependency lines are
appended to the fresh Cargo.toml. -/
def cargo_init (env : Env) : Except String Unit × List Ev :=
  match env.spawnCargoInit with
  | none => (.error spawnFailMsg, [Ev.runCargoInit])
  | some st =>
    if !(exitSuccess st) then
      match st with
      | some c => (.error (cargoExitMsg c), [Ev.runCargoInit])
      | none => (.error cargoSignalMsg, [Ev.runCargoInit])
    else if !env.openAppendOk then (.error openAppendFailMsg, [Ev.runCargoInit])
    else if !env.appendWriteOk then (.error appendFailMsg, [Ev.runCargoInit])
    else (.ok (), [Ev.runCargoInit, Ev.appendCargo depChunk])

/-- `AppState::create_new_project` (main.rs lines 88-100): validate, run
`cargo_init`, load the manifest, install the project, enqueue the three
follow-up tasks. -/
def create_new_project (env : Env) (s : AppState) (path : String) :
    Except String Unit × AppState × List Ev :=
  match validate_new_project_path env with
  | (.error e, t) => (.error e, s, t)
  | (.ok _, t1) =>
    match cargo_init env with
    | (.error e, t2) => (.error e, s, t1 ++ t2)
    | (.ok _, t2) =>
      match read_cargo_toml env with
      | (.error e, t3) => (.error e, s, t1 ++ t2 ++ t3)
      | (.ok ct, t3) =>
        (.ok (),
         { s with project := some ⟨path, ct⟩,
                  gui_tasks := s.gui_tasks ++
                    [GuiTask.EnableUi true,
                     GuiTask.UpdateWindowTitle ("Native Windows WYSIWYG - " ++ path),
                     GuiTask.ReloadProjectSettings] },
         t1 ++ t2 ++ t3)

/-- `AppState::open_project` (main.rs lines 107-125). -/
def open_project (env : Env) (s : AppState) (path : String) :
    Except String Unit × AppState × List Ev :=
  match read_cargo_toml env with
  | (.error e, t) => (.error e, s, t)
  | (.ok ct, t) =>
    let p : Project := ⟨path, ct⟩
    let base := s.gui_tasks ++
      [GuiTask.EnableUi true,
       GuiTask.UpdateWindowTitle ("Native Windows WYSIWYG - " ++ path),
       GuiTask.ReloadProjectSettings,
       GuiTask.ReloadObjectInspector]
    let withDeps := if dependencies_ok p then base
                    else base ++ [GuiTask.AskUserUpdateDependencies]
    let s1 : AppState := { s with project := some p, gui_tasks := withDeps }
    match env.reloadGuiStruct with
    | .error e => (.error e, s1, t)
    | .ok _ => (.ok (), s1, t)

/-- `AppState::open_file_project` (main.rs lines 132-171): the Source Scanner
predicate is checked first; on failure nothing is touched.  On success a
minimal in-memory manifest is synthesized (package name from the file stem,
no dependency section) without reading the file's content. -/
def open_file_project (env : Env) (s : AppState) (path : String) :
    Except String Unit × AppState × List Ev :=
  if !env.hasGuiStruct then (.error noGuiStructMsg, s, [])
  else
    match env.fileMeta with
    | none => (.error (openFileMetaFailMsg path), s, [Ev.statFile])
    | some m =>
      let file_name := env.fileStem.getD ("Undefined")
      let ct : CargoToml := ⟨m, ⟨some file_name, none⟩⟩
      let s1 : AppState :=
        { s with project := some ⟨path, ct⟩,
                 gui_tasks := s.gui_tasks ++
                   [GuiTask.EnableUi true,
                    GuiTask.UpdateWindowTitle ("Native Windows WYSIWYG - " ++ file_name),
                    GuiTask.ReloadProjectSettings,
                    GuiTask.ReloadObjectInspector] }
      match env.reloadGuiStruct with
      | .error e => (.error e, s1, [Ev.statFile])
      | .ok _ => (.ok (), s1, [Ev.statFile])

/-- `AppState::close_project` (main.rs lines 179-189): a no-op when no project
is loaded; otherwise drop the project and enqueue the three teardown tasks.
Total — it cannot fail. -/
def close_project (s : AppState) : AppState :=
  if !s.project_loaded then s
  else
    { s with project := none,
             gui_tasks := s.gui_tasks ++
               [GuiTask.EnableUi false,
                GuiTask.UpdateWindowTitle ("Native Windows WYSIWYG"),
                GuiTask.ClearData] }

/-- `AppState::fix_dependencies` (main.rs lines 196-251): warn and succeed when
no project is loaded; succeed immediately when neither required dependency is
missing; otherwise read the manifest text, splice the two dependency chunks in
right after the first `"[dependencies]"`, write the result back, reload the
manifest, and enqueue `ReloadProjectSettings`. -/
def fix_dependencies (env : Env) (s : AppState) :
    Except String Unit × AppState × List Ev :=
  match s.project with
  | none => (.ok (), s, [Ev.logWarn])
  | some p =>
    let flags := missing_dependencies p
    if !flags.1 && !flags.2 then (.ok (), s, [])
    else
      match env.cargoRead with
      | none => (.error fixReadFailMsg, s, [Ev.readCargo])
      | some text =>
        match splice text [nwgChunk, nwdChunk] with
        | none => (.error noDepSectionMsg, s, [Ev.readCargo])
        | some newText =>
          if !env.openWriteOk then (.error fixOpenFailMsg, s, [Ev.readCargo])
          else if !env.writeAllOk then (.error fixWriteFailMsg, s, [Ev.readCargo])
          else
            match reload_cargo env p with
            | (.error e, t) => (.error e, s, Ev.readCargo :: Ev.writeCargo newText :: t)
            | (.ok p2, t) =>
              (.ok (),
               { s with project := some p2,
                        gui_tasks := s.gui_tasks ++ [GuiTask.ReloadProjectSettings] },
               Ev.readCargo :: Ev.writeCargo newText :: t)

/-- The Application States reachable through the controller's operations. -/
inductive Reachable : AppState → Prop where
  | init : Reachable AppState.init
  | step_create (env : Env) (path : String) {s : AppState} :
      Reachable s → Reachable (create_new_project env s path).2.1
  | step_open (env : Env) (path : String) {s : AppState} :
      Reachable s → Reachable (open_project env s path).2.1
  | step_open_file (env : Env) (path : String) {s : AppState} :
      Reachable s → Reachable (open_file_project env s path).2.1
  | step_fix (env : Env) {s : AppState} :
      Reachable s → Reachable (fix_dependencies env s).2.1
  | step_set_index (i : Option Nat) {s : AppState} :
      Reachable s → Reachable (set_gui_struct_index s i)
  | step_close {s : AppState} :
      Reachable s → Reachable (close_project s)

/- Concrete inputs used by the scenario theorems below. -/

/-- The manifest text of the spec's splice scenario. -/
def c1text : List Char := "[package]\nname=\"x\"\n[dependencies]\nfoo=\"1\"\n".data

/-- The single dependency line inserted in the spec's splice scenario. -/
def c1line : List Char := "bar = \"2\"\n".data

/-- The output the spec's splice scenario claims. -/
def c1claimed : List Char :=
  "[package]\nname=\"x\"\n[dependencies]\nbar = \"2\"\nfoo=\"1\"\n".data

/-- The output the splice actually produces on the scenario input: the inserted
newline is followed by the line, and then by the remainder, which still begins
with the original newline that followed the header — hence a blank line. -/
def c1actual : List Char :=
  "[package]\nname=\"x\"\n[dependencies]\nbar = \"2\"\n\nfoo=\"1\"\n".data

/-- A parsed manifest with no package name and no dependency section. -/
def tvEmpty : TomlVal := ⟨none, none⟩

/-- A fully healthy environment: everything exists, both stats return time 0,
all filesystem calls and the subprocess succeed. -/
def env4 : Env :=
  { rootMeta := some 0, rootIsDir := true, rootReadonly := false,
    readDirNonEmpty := some false, spawnCargoInit := some (some 0),
    openAppendOk := true, appendWriteOk := true,
    cargoMeta := some 0, cargoRead := some [], parse := fun _ => some tvEmpty,
    fileMeta := some 0, fileStem := none, hasGuiStruct := true,
    openWriteOk := true, writeAllOk := true, reloadGuiStruct := Except.ok () }

/-- An environment with no write anywhere, in which the project root directory
and Cargo.toml simply carry different (constant) modification times: the root
was last modified at time 1, Cargo.toml at time 2. -/
def env2 : Env := { env4 with rootMeta := some 1, cargoMeta := some 2, fileMeta := some 1 }

/-- An environment whose project path does not exist. -/
def envBad : Env := { env4 with rootMeta := none }

/-- An environment whose file lacks the UI-structure marker. -/
def env7 : Env := { env4 with hasGuiStruct := false }

/-- An environment in which `cargo init` exits with code 101. -/
def env9 : Env := { env4 with spawnCargoInit := some (some 101) }

/-- A project whose manifest already lists both required dependencies. -/
def pOk : Project := ⟨"p", ⟨0, ⟨none, some [nwgName, nwdName]⟩⟩⟩

/-- A loaded state holding `pOk`. -/
def sOk : AppState := ⟨some pOk, none, []⟩

/-- Manifest text in which the literal `"[dependencies]"` occurs first inside a
comment, before the real section header. -/
def c10text : List Char := "# [dependencies] note\n[dependencies]\nfoo=\"1\"\n".data

/-- What the splice produces on `c10text`: the two dependency chunks land right
after the occurrence inside the comment, not after the real header. -/
def c10result : List Char :=
  ("# [dependencies]\nnative-windows-gui = \"~1.0\"\nnative-windows-derive = \"~1.0\"\n" ++
   " note\n[dependencies]\nfoo=\"1\"\n").data

/- Helper lemmas about the marker search and the splice. -/

/-- When `findSub` returns an index, the pattern occurs there. -/
theorem findSub_isPrefixOf {pat : List Char} :
    ∀ {t : List Char} {i : Nat}, findSub pat t = some i →
      pat.isPrefixOf (t.drop i) = true := by
  intro t
  induction t with
  | nil =>
    intro i h
    by_cases hp : pat.isPrefixOf ([] : List Char) = true
    · simp [findSub, hp] at h
      simpa [← h] using hp
    · simp [findSub, hp] at h
  | cons c rest ih =>
    intro i h
    by_cases hp : pat.isPrefixOf (c :: rest) = true
    · simp [findSub, hp] at h
      simpa [← h] using hp
    · simp [findSub, hp] at h
      obtain ⟨j, hj, rfl⟩ := h
      simpa using ih hj

/-- The index returned by `findSub` is the first occurrence: the pattern does
not occur at any smaller index. -/
theorem findSub_least {pat : List Char} :
    ∀ {t : List Char} {i : Nat}, findSub pat t = some i →
      ∀ j, j < i → pat.isPrefixOf (t.drop j) = false := by
  intro t
  induction t with
  | nil =>
    intro i h j hj
    by_cases hp : pat.isPrefixOf ([] : List Char) = true
    · simp [findSub, hp] at h
      omega
    · simp [findSub, hp] at h
  | cons c rest ih =>
    intro i h j hj
    by_cases hp : pat.isPrefixOf (c :: rest) = true
    · simp [findSub, hp] at h
      omega
    · simp [findSub, hp] at h
      obtain ⟨j0, hj0, rfl⟩ := h
      cases j with
      | zero =>
        simp only [List.drop_zero]
        exact Bool.eq_false_iff.mpr hp
      | succ k =>
        simp only [List.drop_succ_cons]
        exact ih hj0 k (by omega)

/-- Unfolding of `splice` when the marker is present at index `i`. -/
theorem splice_eq {text : List Char} {i : Nat} (lines : List (List Char))
    (h : findSub depMarker text = some i) :
    splice text lines =
      some (text.take (i + depMarker.length) ++
        '\n' :: (lines.flatten ++ text.drop (i + depMarker.length))) := by
  simp [splice, h]

/-- The trace of `validate_new_project_path` only ever holds the root metadata
stat and the directory listing. -/
theorem validate_trace (env : Env) :
    (validate_new_project_path env).2 = [Ev.statRoot] ∨
    (validate_new_project_path env).2 = [Ev.statRoot, Ev.readDir] := by
  unfold validate_new_project_path
  rcases env.rootMeta with _ | m
  · left; rfl
  · rcases hd : env.rootIsDir <;> rcases hr : env.rootReadonly <;>
      rcases hne : env.readDirNonEmpty with _ | (_ | _) <;>
      simp [hd, hr, hne]

/-- C1, counterexample: on the spec's scenario input, the dependency splice does
not yield the claimed string — the actual output keeps the original newline
after the header in the remainder, leaving a blank line before `foo`. -/
theorem c1_counterexample :
    splice c1text [c1line] = some c1actual ∧ c1actual ≠ c1claimed := by
  constructor <;> decide

/-- C1 (amended): whenever the manifest text contains the `[dependencies]`
marker, the splice writes back exactly [text up to and including the marker] ++
one newline ++ the dependency lines ++ the original remainder, preserving every
byte of the original text outside the inserted region (`take ++ drop`
round-trip); on the scenario input, inserting `bar = "2"\n` yields the text
with a blank line between the inserted line and `foo="1"`. -/
theorem c1_splice_formula_and_scenario :
    (∀ (text : List Char) (lines : List (List Char)) (i : Nat),
        findSub depMarker text = some i →
        splice text lines =
          some (text.take (i + depMarker.length) ++
            '\n' :: (lines.flatten ++ text.drop (i + depMarker.length))) ∧
        text.take (i + depMarker.length) ++ text.drop (i + depMarker.length) = text) ∧
    splice c1text [c1line] = some c1actual := by
  constructor
  · intro text lines i h
    exact ⟨splice_eq lines h, List.take_append_drop _ _⟩
  · decide

/-- Witness for C1: the general splice formula instantiated at the scenario
text, whose marker sits at index 19. -/
theorem c1_splice_formula_witness :
    (splice c1text [c1line] =
      some (c1text.take (19 + depMarker.length) ++
        '\n' :: (([c1line] : List (List Char)).flatten ++
          c1text.drop (19 + depMarker.length))) ∧
     c1text.take (19 + depMarker.length) ++ c1text.drop (19 + depMarker.length) = c1text) ∧
    splice c1text [c1line] = some c1actual :=
  ⟨(c1_splice_formula_and_scenario).1 c1text [c1line] 19 (by decide),
   (c1_splice_formula_and_scenario).2⟩

/-- C2: evaluation at the failing input `env2` (root directory mtime 1,
Cargo.toml mtime 2, no intervening write).  `read_cargo_toml` returns a
manifest stamped with the root directory's mtime 1, because it stats the
project root rather than Cargo.toml; the immediately following `reload_cargo`
stats Cargo.toml, sees 2 ≠ 1, performs a full file read (`Ev.readCargo` in its
trace) and returns a different manifest — against the claim that no file read
happens and the identical manifest is returned. -/
theorem c2_reload_after_open_rereads :
    (read_cargo_toml env2).1 = Except.ok ⟨1, tvEmpty⟩ ∧
    reload_cargo env2 ⟨"p", ⟨1, tvEmpty⟩⟩ =
      (Except.ok ⟨"p", ⟨2, tvEmpty⟩⟩, [Ev.statCargo, Ev.readCargo]) := by
  constructor <;> rfl

/-- C3: evaluation at the failing input `env2`.  The manifest load succeeds and
returns `modified = 1`, the project root directory's mtime, while Cargo.toml's
own on-disk mtime is 2 — `read_cargo_toml` stats `path` (the root) instead of
`cargo_path` (main.rs line 334), so the claim that `modified` equals the
manifest file's timestamp fails. -/
theorem c3_modified_is_root_dir_mtime :
    (read_cargo_toml env2).1 = Except.ok ⟨1, tvEmpty⟩ ∧ env2.cargoMeta = some 2 := by
  constructor <;> rfl

/-- C4, counterexample: a state reachable through the controller's operations
(open a project, set the GUI-struct index, close) in which the project slot is
empty yet `gui_struct_index` is still present — `close_project` clears only the
project slot, not the index. -/
theorem c4_counterexample :
    ∃ s : AppState, Reachable s ∧ s.project = none ∧ s.gui_struct_index = some 0 := by
  refine ⟨close_project (set_gui_struct_index
      (open_project env4 AppState.init ("p")).2.1 (some 0)),
    Reachable.step_close (Reachable.step_set_index (some 0)
      (Reachable.step_open env4 ("p") Reachable.init)), ?_, ?_⟩ <;> rfl

/-- C4 (amended): after `close_project` the project slot is always empty, but
`gui_struct_index` keeps whatever value it had — closing does not clear it. -/
theorem c4_close_clears_project_keeps_index (s : AppState) :
    (close_project s).project = none ∧
    (close_project s).gui_struct_index = s.gui_struct_index := by
  cases hp : s.project <;>
    simp [close_project, AppState.project_loaded, hp]

/-- Witness for C4's amended theorem at a concrete loaded state. -/
theorem c4_close_witness :
    (close_project sOk).project = none ∧
    (close_project sOk).gui_struct_index = sOk.gui_struct_index :=
  c4_close_clears_project_keeps_index sOk

/-- C5: `close_project` is idempotent — calling it twice produces the same
final state (hence the same task queue) as calling it once; the second call is
a no-op and, being a total function into `AppState`, close never fails. -/
theorem c5_close_idempotent (s : AppState) :
    close_project (close_project s) = close_project s := by
  cases hp : s.project <;>
    simp [close_project, AppState.project_loaded, hp]

/-- Witness for C5 at a concrete loaded state. -/
theorem c5_close_witness :
    close_project (close_project sOk) = close_project sOk :=
  c5_close_idempotent sOk

/-- C6: `validate_new_project_path` short-circuits in the order existence →
is-directory → writable → empty (each earlier failure decides the result
regardless of the later fields), and whenever validation fails,
`create_new_project` returns that very error with the state untouched and a
trace containing no `cargo init` spawn — only the root stat and possibly the
directory listing. -/
theorem c6_validation_order_and_no_subprocess (env : Env) (s : AppState) (path : String) :
    (env.rootMeta = none →
      validate_new_project_path env = (Except.error existMsg, [Ev.statRoot])) ∧
    (∀ m, env.rootMeta = some m → env.rootIsDir = false →
      validate_new_project_path env = (Except.error notDirMsg, [Ev.statRoot])) ∧
    (∀ m, env.rootMeta = some m → env.rootIsDir = true → env.rootReadonly = true →
      validate_new_project_path env = (Except.error notWritableMsg, [Ev.statRoot])) ∧
    (∀ m, env.rootMeta = some m → env.rootIsDir = true → env.rootReadonly = false →
      env.readDirNonEmpty = some true →
      validate_new_project_path env = (Except.error notEmptyMsg, [Ev.statRoot, Ev.readDir])) ∧
    (∀ e t, validate_new_project_path env = (Except.error e, t) →
      create_new_project env s path = (Except.error e, s, t) ∧
      Ev.runCargoInit ∉ t ∧ ∀ ev ∈ t, ev = Ev.statRoot ∨ ev = Ev.readDir) := by
  refine ⟨?_, ?_, ?_, ?_, ?_⟩
  · intro h; simp [validate_new_project_path, h]
  · intro m hm hd; simp [validate_new_project_path, hm, hd]
  · intro m hm hd hr; simp [validate_new_project_path, hm, hd, hr]
  · intro m hm hd hr hne; simp [validate_new_project_path, hm, hd, hr, hne]
  · intro e t hv
    have ht : t = [Ev.statRoot] ∨ t = [Ev.statRoot, Ev.readDir] := by
      have h := validate_trace env
      rw [hv] at h
      exact h
    refine ⟨by simp [create_new_project, hv], ?_, ?_⟩
    · rcases ht with rfl | rfl <;> decide
    · rcases ht with rfl | rfl <;> intro ev hev <;> simp at hev <;>
        first
          | exact hev
          | simp [hev]

/-- Witness for C6: on a nonexistent path, create fails with the existence
error and the subprocess is never spawned. -/
theorem c6_validation_witness :
    validate_new_project_path envBad = (Except.error existMsg, [Ev.statRoot]) ∧
    create_new_project envBad AppState.init ("p") =
      (Except.error existMsg, AppState.init, [Ev.statRoot]) ∧
    Ev.runCargoInit ∉ ([Ev.statRoot] : List Ev) := by
  have h := c6_validation_order_and_no_subprocess envBad AppState.init ("p")
  have h1 := h.1 rfl
  have h5 := h.2.2.2.2 existMsg [Ev.statRoot] h1
  exact ⟨h1, h5.1, h5.2.1⟩

/-- C7: when the Source Scanner finds no UI structure in the file,
`open_file_project` fails with the validation message and leaves the
Application State completely unchanged — no tasks enqueued, project slot not
set, and not even the metadata stat is reached. -/
theorem c7_open_file_no_gui_struct (env : Env) (s : AppState) (path : String)
    (h : env.hasGuiStruct = false) :
    open_file_project env s path = (Except.error noGuiStructMsg, s, []) := by
  simp [open_file_project, h]

/-- Witness for C7 at a concrete environment lacking the marker. -/
theorem c7_open_file_witness :
    open_file_project env7 AppState.init ("f.rs") =
      (Except.error noGuiStructMsg, AppState.init, []) :=
  c7_open_file_no_gui_struct env7 AppState.init ("f.rs") rfl

/-- C8: `fix_dependencies` is a benign no-op in both claimed cases — with no
project loaded it returns success, changes nothing and only logs a warning;
with both required dependencies already present it returns success with the
state untouched, no tasks enqueued and no filesystem event at all. -/
theorem c8_fix_dependencies_noop (env : Env) (s : AppState) :
    (s.project = none → fix_dependencies env s = (Except.ok (), s, [Ev.logWarn])) ∧
    (∀ p, s.project = some p → missing_dependencies p = (false, false) →
      fix_dependencies env s = (Except.ok (), s, [])) := by
  constructor
  · intro h; simp [fix_dependencies, h]
  · intro p hp hm; simp [fix_dependencies, hp, hm]

/-- Witness for C8: the empty state, and a loaded state whose manifest already
lists both required dependencies. -/
theorem c8_fix_dependencies_witness :
    fix_dependencies env4 AppState.init = (Except.ok (), AppState.init, [Ev.logWarn]) ∧
    fix_dependencies env4 sOk = (Except.ok (), sOk, []) :=
  ⟨(c8_fix_dependencies_noop env4 AppState.init).1 rfl,
   (c8_fix_dependencies_noop env4 sOk).2 pOk rfl (by decide)⟩

/-- C9: for the `cargo init` invocation, success is exactly exit status zero;
every non-zero exit is surfaced as an error whose message contains the exit
code, every signal termination as the signal message, and with exit zero the
invocation proceeds as a success — no status is silently ignored. -/
theorem c9_cargo_init_exit_status (env : Env) :
    (∀ st : ExitStatus, env.spawnCargoInit = some st → (exitSuccess st = true ↔ st = some 0)) ∧
    (∀ c : Int, env.spawnCargoInit = some (some c) → c ≠ 0 →
      cargo_init env = (Except.error (cargoExitMsg c), [Ev.runCargoInit]) ∧
      (toString c).data <:+: (cargoExitMsg c).data) ∧
    (env.spawnCargoInit = some none →
      cargo_init env = (Except.error cargoSignalMsg, [Ev.runCargoInit])) ∧
    (env.spawnCargoInit = some (some 0) → env.openAppendOk = true → env.appendWriteOk = true →
      cargo_init env = (Except.ok (), [Ev.runCargoInit, Ev.appendCargo depChunk])) := by
  refine ⟨?_, ?_, ?_, ?_⟩
  · intro st _
    simp [exitSuccess]
  · intro c h hc
    constructor
    · simp [cargo_init, h, exitSuccess, hc]
    · exact ⟨"`cargo init` terminated with exit code ".data, [], by simp [cargoExitMsg]⟩
  · intro h
    simp [cargo_init, h, exitSuccess]
  · intro h h1 h2
    simp [cargo_init, h, exitSuccess, h1, h2]

/-- Witness for C9: an exit with code 101 is surfaced with the code in the
message. -/
theorem c9_cargo_init_witness :
    cargo_init env9 = (Except.error (cargoExitMsg 101), [Ev.runCargoInit]) ∧
    (toString (101 : Int)).data <:+: (cargoExitMsg 101).data :=
  (c9_cargo_init_exit_status env9).2.1 101 rfl (by decide)

/-- C10: the splice inserts immediately after the first occurrence of the
literal `"[dependencies]"` anywhere in the text — the chosen index is an
occurrence, no smaller index is one, and the written text splits there; on a
manifest whose first occurrence is inside a comment, the dependency chunks are
spliced into the comment, not after the real section header. -/
theorem c10_first_occurrence :
    (∀ (text : List Char) (i : Nat), findSub depMarker text = some i →
      depMarker.isPrefixOf (text.drop i) = true ∧
      (∀ j, j < i → depMarker.isPrefixOf (text.drop j) = false) ∧
      ∀ lines, splice text lines =
        some (text.take (i + depMarker.length) ++
          '\n' :: (lines.flatten ++ text.drop (i + depMarker.length)))) ∧
    (findSub depMarker c10text = some 2 ∧
     splice c10text [nwgChunk, nwdChunk] = some c10result) := by
  constructor
  · intro text i h
    exact ⟨findSub_isPrefixOf h, fun j hj => findSub_least h j hj,
           fun lines => splice_eq lines h⟩
  · constructor <;> decide

/-- Witness for C10: on `c10text` the match at index 2 (inside the comment) is
an occurrence and indices 0 and 1 are not. -/
theorem c10_first_occurrence_witness :
    depMarker.isPrefixOf (c10text.drop 2) = true ∧
    depMarker.isPrefixOf (c10text.drop 0) = false ∧
    depMarker.isPrefixOf (c10text.drop 1) = false := by
  have h := (c10_first_occurrence).1 c10text 2 (by decide)
  exact ⟨h.1, h.2.1 0 (by decide), h.2.1 1 (by decide)⟩

end NWW
